import Mathlib

/-!
Verification of the MCP example servers (`src/python/sse/app.py` and
`src/python/streamable/app.py`).

The two Python files are shallowly embedded below. JSON values decoded by
FastAPI (`await request.json()`) are modelled by the inductive type `JVal`;
Python dictionaries are association lists with string keys; `dict.get` is
modelled by `jget` (raising `AttributeError` when the receiver is not a
dictionary, exactly as Python does when `.get` is called on a non-dict);
fallible Python code returns `Except PyErr`. JSON numbers are modelled as
integers (the servers never produce nor inspect fractional numbers).
Event frames (`format_sse("message", json.dumps(obj))` and
`format_sse("endpoint", url)`) are kept structurally as a pair of the event
type and the unserialized payload, so that theorems can speak about fields of
the framed JSON object; `format_sse` itself is embedded separately as the
pure string formatter it is in the source.
-/

/-- A decoded JSON value, as produced by `request.json()`. -/
inductive JVal where
  | null
  | bool (b : Bool)
  | num (n : Int)
  | str (s : String)
  | arr (elems : List JVal)
  | obj (fields : List (String × JVal))

/-- Python exceptions that the embedded code can raise. -/
inductive PyErr where
  | attributeError
deriving DecidableEq

/-- `d.get(key, default)` on a Python value: returns the entry when the value
is a dict containing `key`, the default when the key is missing, and raises
`AttributeError` when the receiver is not a dict. `d.get(key)` with no
explicit default is `jget d key .null` (Python returns `None`). -/
def jget (v : JVal) (key : String) (default : JVal) : Except PyErr JVal :=
  match v with
  | .obj fields => .ok ((List.lookup key fields).getD default)
  | _ => .error .attributeError

/-- Pure field lookup on a JSON object (`none` on non-objects); used only in
theorem statements, never by the embedded handlers. -/
def jlookup (v : JVal) (key : String) : Option JVal :=
  match v with
  | .obj fields => List.lookup key fields
  | _ => none

/-- Python `==` between an arbitrary decoded value and a string literal:
true exactly when the value is that string (no cross-type equality holds
against `str` in Python). -/
def jeqStr (v : JVal) (s : String) : Bool :=
  match v with
  | .str t => t == s
  | _ => false

/-- One escaped character of Python `repr` for strings (backslash, the chosen
quote, and the common control characters; other characters are untouched). -/
def pyEscapeChar (quote : Char) (c : Char) : String :=
  if c = '\\' then "\\\\"
  else if c = quote then "\\" ++ String.singleton quote
  else if c = '\n' then "\\n"
  else if c = '\r' then "\\r"
  else if c = '\t' then "\\t"
  else String.singleton c

/-- Python `repr` of a string: single-quoted, except double-quoted when the
string contains a single quote and no double quote. -/
def pyQuote (s : String) : String :=
  let q : Char := if s.contains '\'' && !(s.contains '"') then '"' else '\''
  String.singleton q ++ String.join (s.toList.map (pyEscapeChar q)) ++ String.singleton q

mutual
/-- Python `repr` of a JSON-decoded value (`None`, `True`/`False`, decimal
integers, quoted strings, `[...]` lists and `{...}` dicts). -/
def pyRepr : JVal → String
  | .null => "None"
  | .bool true => "True"
  | .bool false => "False"
  | .num n => toString n
  | .str s => pyQuote s
  | .arr es => "[" ++ pyReprList es ++ "]"
  | .obj fs => "\x7b" ++ pyReprFields fs ++ "\x7d"

/-- Comma-separated `repr`s of list elements. -/
def pyReprList : List JVal → String
  | [] => ""
  | [e] => pyRepr e
  | e :: es => pyRepr e ++ ", " ++ pyReprList es

/-- Comma-separated `repr`s of dict entries. -/
def pyReprFields : List (String × JVal) → String
  | [] => ""
  | [(k, v)] => pyQuote k ++ ": " ++ pyRepr v
  | (k, v) :: fs => pyQuote k ++ ": " ++ pyRepr v ++ ", " ++ pyReprFields fs
end

/-- Python `str()` of a JSON-decoded value: the string itself for strings,
`repr` otherwise. -/
def pyStr : JVal → String
  | .str s => s
  | v => pyRepr v

/-- Python `str.upper()`: uppercase every character (written directly over
the character list so that it evaluates by `rfl`). -/
def str_upper (s : String) : String := ⟨s.data.map Char.toUpper⟩

/-- `format_sse` — identical in both source files: two lines
`event: <type>` / `data: <payload>` and a blank line. -/
def format_sse (event : String) (data : String) : String :=
  "event: " ++ event ++ "\ndata: " ++ data ++ "\n\n"

/-- An event frame kept structurally: event type and the payload *before*
serialization (`.str url` for the endpoint event, the JSON object for
`message` events, which the source passes through `json.dumps`). -/
abbrev Frame := String × JVal

/-- The `initialize` result — the same literal dict in both source files. -/
def init_result : JVal :=
  .obj [("protocolVersion", .str "2025-03-26"),
        ("serverInfo", .obj [("name", .str "Python To-Uppercase Server"),
                             ("version", .str "1.0.0")]),
        ("capabilities", .obj [("tools", .obj [("listChanged", .bool true)])])]

/-- The single tool descriptor both files declare for `to-uppercase`. -/
def uppercase_tool : JVal :=
  .obj [("name", .str "to-uppercase"),
        ("description", .str "Converts the input string to uppercase."),
        ("inputSchema",
         .obj [("type", .str "object"),
               ("properties",
                .obj [("input",
                       .obj [("type", .str "string"),
                             ("description", .str "The string to be converted to uppercase.")])]),
               ("required", .arr [.str "input"])])]

/-- The second tool descriptor of the streamable server. -/
def slow_uppercase_tool : JVal :=
  .obj [("name", .str "to-uppercase-slowly"),
        ("description", .str "Converts the input string to uppercase. (simulates slow processing)"),
        ("inputSchema",
         .obj [("type", .str "object"),
               ("properties",
                .obj [("input",
                       .obj [("type", .str "string"),
                             ("description", .str "The string to be converted to uppercase.")])]),
               ("required", .arr [.str "input"])])]

/-- `TOOLS` of `streamable/app.py`. -/
def TOOLS : JVal := .arr [uppercase_tool, slow_uppercase_tool]

/-- The tool result dict `{"content": [{"type": "text", "text": text}],
"isError": False}` built (inline) by both servers. -/
def tool_text_result (text : String) : JVal :=
  .obj [("content", .arr [.obj [("type", .str "text"), ("text", .str text)]]),
        ("isError", .bool false)]

/-- A JSON-RPC error object `{"code": code, "message": message}`. -/
def rpc_error (code : Int) (message : String) : JVal :=
  .obj [("code", .num code), ("message", .str message)]

/-! ## `src/python/streamable/app.py` -/

/-- `base_response(result, error, request_id=...)`: the envelope starts as
`{"jsonrpc": "2.0", "id": request_id}`; when `error` is not `None` the
`error` field is set, otherwise the `result` field is set (to `None`, i.e.
JSON `null`, when `result` was not given). -/
def base_response (result : Option JVal) (error : Option JVal) (request_id : JVal) : JVal :=
  match error with
  | some err => .obj [("jsonrpc", .str "2.0"), ("id", request_id), ("error", err)]
  | none => .obj [("jsonrpc", .str "2.0"), ("id", request_id), ("result", result.getD .null)]

/-- The progress notification dict built in each iteration of
`slow_uppercase_stream`'s loop (`i` is the loop counter, 1-based; the source
computes the percentage as `int(i * 100 / 10)`, which equals `i * 10` exactly
on the loop's range). -/
def progress_event (progress_token : JVal) (i : Nat) : JVal :=
  .obj [("jsonrpc", .str "2.0"),
        ("method", .str "notifications/progress"),
        ("params",
         .obj [("progress", .num (Int.ofNat i)),
               ("total", .num 10),
               ("progressToken", progress_token),
               ("message", .str ("Server progress " ++ toString (i * 10) ++ "%"))])]

/-- `slow_uppercase_stream(payload, request_id, input_value)`: re-reads
`params`/`_meta`/`progressToken` from the payload, then yields ten
`message`-framed progress notifications (`for i in range(1, 11)`, the 300 ms
sleep between frames is timing and is not modelled) followed by one
`message`-framed terminal response carrying the uppercased input. An
exception from the `.get` chain (non-dict `params` or `_meta`) aborts the
stream before any frame is yielded. -/
def slow_uppercase_stream (payload : JVal) (request_id : JVal) (input_value : String) :
    Except PyErr (List Frame) :=
  match jget payload "params" (.obj []) with
  | .error e => .error e
  | .ok params =>
    match jget params "_meta" (.obj []) with
    | .error e => .error e
    | .ok meta =>
      match jget meta "progressToken" .null with
      | .error e => .error e
      | .ok progress_token =>
        .ok ((List.range 10).map (fun i => ("message", progress_event progress_token (i + 1)))
             ++ [("message", base_response (some (tool_text_result (str_upper input_value))) none request_id)])

/-- What `handle_mcp` returns: a plain `JSONResponse` body, or a
`StreamingResponse` whose body is a list of event frames. -/
inductive McpResult where
  | json (body : JVal)
  | stream (frames : List Frame)

/-- `handle_mcp(request)` of `streamable/app.py`, on the decoded request
body: branches on `method`, and for `tools/call` reads
`params`/`name`/`arguments`/`input` (coercing the input with `str()`) before
branching on the tool name. Unknown tools get the `-32602` error, unknown
methods the `-32601` error. -/
def handle_mcp (payload : JVal) : Except PyErr McpResult :=
  match jget payload "method" .null with
  | .error e => .error e
  | .ok method =>
  match jget payload "id" .null with
  | .error e => .error e
  | .ok request_id =>
  if jeqStr method "initialize" then
    .ok (.json (base_response (some init_result) none request_id))
  else if jeqStr method "tools/list" then
    .ok (.json (base_response (some (.obj [("tools", TOOLS)])) none request_id))
  else if jeqStr method "tools/call" then
    match jget payload "params" (.obj []) with
    | .error e => .error e
    | .ok params =>
    match jget params "name" .null with
    | .error e => .error e
    | .ok tool_name =>
    match jget params "arguments" (.obj []) with
    | .error e => .error e
    | .ok arguments =>
    match jget arguments "input" (.str "") with
    | .error e => .error e
    | .ok input_raw =>
    let input_value := pyStr input_raw
    if jeqStr tool_name "to-uppercase" then
      .ok (.json (base_response (some (tool_text_result (str_upper input_value))) none request_id))
    else if jeqStr tool_name "to-uppercase-slowly" then
      match slow_uppercase_stream payload request_id input_value with
      | .error e => .error e
      | .ok frames => .ok (.stream frames)
    else
      .ok (.json (base_response none (some (rpc_error (-32602) "Unsupported tool name")) request_id))
  else
    .ok (.json (base_response none (some (rpc_error (-32601) "Method not found")) request_id))

/-! ## `src/python/sse/app.py` -/

/-- `perform_to_uppercase(text)`: `text.upper()` — an `AttributeError` when
the argument is not a string (only strings have `.upper`). -/
def perform_to_uppercase (text : JVal) : Except PyErr String :=
  match text with
  | .str s => .ok (str_upper s)
  | _ => .error .attributeError

/-- `build_response(request_payload)` of `sse/app.py`: the pure JSON-RPC
dispatcher. `tools/call` with any name other than `to-uppercase` falls
through — together with every unknown method — to the final generic
`-32601 Method not found` error. Note there is no `str()` coercion here:
a non-string `input` reaches `perform_to_uppercase` and raises. -/
def build_response (request_payload : JVal) : Except PyErr JVal :=
  match jget request_payload "method" .null with
  | .error e => .error e
  | .ok method =>
  match jget request_payload "id" .null with
  | .error e => .error e
  | .ok request_id =>
  if jeqStr method "initialize" then
    .ok (.obj [("jsonrpc", .str "2.0"), ("id", request_id), ("result", init_result)])
  else if jeqStr method "tools/list" then
    .ok (.obj [("jsonrpc", .str "2.0"), ("id", request_id),
               ("result", .obj [("tools", .arr [uppercase_tool])])])
  else if jeqStr method "tools/call" then
    match jget request_payload "params" (.obj []) with
    | .error e => .error e
    | .ok params =>
    match jget params "name" .null with
    | .error e => .error e
    | .ok name =>
    if jeqStr name "to-uppercase" then
      match jget params "arguments" (.obj []) with
      | .error e => .error e
      | .ok arguments =>
      match jget arguments "input" (.str "") with
      | .error e => .error e
      | .ok input_value =>
      match perform_to_uppercase input_value with
      | .error e => .error e
      | .ok upper =>
      .ok (.obj [("jsonrpc", .str "2.0"), ("id", request_id),
                 ("result", tool_text_result upper)])
    else
      .ok (.obj [("jsonrpc", .str "2.0"), ("id", request_id),
                 ("error", rpc_error (-32601) "Method not found")])
  else
    .ok (.obj [("jsonrpc", .str "2.0"), ("id", request_id),
               ("error", rpc_error (-32601) "Method not found")])

/-- The state of `SessionRegistry`: its `_sessions` dict, mapping a session
id to that session's queue of frames (the queue contents are modelled inside
the registry; `asyncio.Queue` is FIFO, so a queue is the list of frames in
enqueue order). The `asyncio.Lock` makes each method atomic, so each method
is a pure function of the registry state. -/
abbrev SessionRegistry := List (String × List Frame)

/-- `SessionRegistry.create(session_id)`: installs a fresh empty queue under
the id (dict assignment, so an existing entry with the same key would be
overwritten). -/
def SessionRegistry.create (r : SessionRegistry) (session_id : String) : SessionRegistry :=
  (session_id, ([] : List Frame)) :: r.filter (fun p => p.1 ≠ session_id)

/-- `SessionRegistry.get(session_id)`: `self._sessions.get(session_id)`,
raising `KeyError` — here `none` — when absent, without mutating the map. -/
def SessionRegistry.get (r : SessionRegistry) (session_id : String) : Option (List Frame) :=
  List.lookup session_id r

/-- `SessionRegistry.pop(session_id)`: removes the entry, returning the new
map and the removed queue (`none` when the id was absent). -/
def SessionRegistry.pop (r : SessionRegistry) (session_id : String) :
    SessionRegistry × Option (List Frame) :=
  (r.filter (fun p => p.1 ≠ session_id), List.lookup session_id r)

/-- Appending a frame to one session's queue (`queue.put`, FIFO). -/
def SessionRegistry.enqueue (r : SessionRegistry) (session_id : String) (f : Frame) :
    SessionRegistry :=
  r.map (fun p => if p.1 = session_id then (p.1, p.2 ++ [f]) else p)

/-- The HTTP outcome of `post_message`. -/
inductive PostOutcome where
  | badRequest        -- HTTP 400: sessionid missing or empty
  | notFound          -- HTTP 404: session not in the registry
  | raised (e : PyErr)  -- an exception escaped `build_response`
  | accepted          -- HTTP 202 with the acknowledgement body
deriving DecidableEq

/-- `post_message(request)` of `sse/app.py`, given the registry state, the
`sessionid` query parameter (`none` when absent) and the decoded POST body:
a falsy session id (absent or empty string) is a 400; an unknown id is a
404; otherwise the dispatcher's response is framed as a `message` event and
enqueued on the session's queue, and the POST is acknowledged with 202. -/
def post_message (r : SessionRegistry) (sessionid : Option String) (body : JVal) :
    SessionRegistry × PostOutcome :=
  match sessionid with
  | none => (r, .badRequest)
  | some session_id =>
    if session_id = "" then (r, .badRequest)
    else
      match SessionRegistry.get r session_id with
      | none => (r, .notFound)
      | some _ =>
        match build_response body with
        | .error e => (r, .raised e)
        | .ok response =>
          (SessionRegistry.enqueue r session_id ("message", response), .accepted)

/-- The endpoint URL sent in the first SSE event:
`str(request.url_for("post_message")) + f"?sessionid={session_id}"`, or the
fallback `f"/message?sessionid={session_id}"` when `url_for` raises. -/
def endpoint_url (base_url : Option String) (session_id : String) : String :=
  match base_url with
  | some base => base ++ "?sessionid=" ++ session_id
  | none => "/message?sessionid=" ++ session_id

/-- Sequential model of `sse_stream`'s `event_generator`: the generator first
puts the `endpoint` frame on the session's queue and then drains the queue
forever, yielding frames in FIFO order. Its output is therefore the queue
contents at the moment of the `put` (`queue_at_start` — empty in every
sequential execution, because `sse_stream` installed a fresh empty queue and
nobody else yet knows the freshly generated id), then the `endpoint` frame,
then whatever `post_message` enqueues afterwards (`enqueued_later`), until
the connection is cancelled. -/
def event_generator (queue_at_start : List Frame) (base_url : Option String)
    (session_id : String) (enqueued_later : List Frame) : List Frame :=
  queue_at_start ++ [("endpoint", .str (endpoint_url base_url session_id))] ++ enqueued_later

/-! ## Predicates and sample inputs used by the theorems -/

/-- Whether a produced JSON object has a field named `k`. -/
def has_key (v : JVal) (k : String) : Bool := (jlookup v k).isSome

/-- A response envelope carries exactly one of `result`/`error`. -/
def exactly_one_result_error (v : JVal) : Bool :=
  Bool.xor (has_key v "result") (has_key v "error")

/-- The `params` object of the first frame of a streaming result (`none` for
non-streaming or empty results). -/
def first_frame_params : Except PyErr McpResult → Option JVal
  | .ok (.stream (f :: _)) => jlookup f.2 "params"
  | _ => none

/-- A synchronous `tools/call` request for `to-uppercase` with input `"abc"`. -/
def sample_upper_call : List (String × JVal) :=
  [("jsonrpc", .str "2.0"), ("id", .num 1), ("method", .str "tools/call"),
   ("params", .obj [("name", .str "to-uppercase"),
                    ("arguments", .obj [("input", .str "abc")])])]

/-- A `tools/call` request for `to-uppercase` whose `input` is the number 5. -/
def sample_nonstring_call : List (String × JVal) :=
  [("jsonrpc", .str "2.0"), ("id", .num 2), ("method", .str "tools/call"),
   ("params", .obj [("name", .str "to-uppercase"),
                    ("arguments", .obj [("input", .num 5)])])]

/-- A `tools/call` request for a tool name neither server registers. -/
def sample_unknown_call : List (String × JVal) :=
  [("jsonrpc", .str "2.0"), ("id", .num 3), ("method", .str "tools/call"),
   ("params", .obj [("name", .str "no-such-tool"),
                    ("arguments", .obj [("input", .str "abc")])])]

/-- A progressive `tools/call` for `to-uppercase-slowly` carrying a
`progressToken`. -/
def sample_slow_call : List (String × JVal) :=
  [("jsonrpc", .str "2.0"), ("id", .num 4), ("method", .str "tools/call"),
   ("params", .obj [("name", .str "to-uppercase-slowly"),
                    ("_meta", .obj [("progressToken", .str "tok-1")]),
                    ("arguments", .obj [("input", .str "abc")])])]

/-- A progressive `tools/call` for `to-uppercase-slowly` whose caller supplied
no `_meta.progressToken`. -/
def slow_call_without_token : List (String × JVal) :=
  [("jsonrpc", .str "2.0"), ("id", .num 5), ("method", .str "tools/call"),
   ("params", .obj [("name", .str "to-uppercase-slowly"),
                    ("arguments", .obj [("input", .str "abc")])])]

/-- A `tools/list` request with id 7, used to exercise the dispatchers. -/
def sample_list_call : List (String × JVal) :=
  [("jsonrpc", .str "2.0"), ("id", .num 7), ("method", .str "tools/list")]

/-- A `tools/list` notification: no `id` field at all. -/
def sample_list_notification : List (String × JVal) :=
  [("jsonrpc", .str "2.0"), ("method", .str "tools/list")]

/-- A one-session registry whose session `"abc"` has an empty queue. -/
def sample_registry : SessionRegistry := [("abc", [])]

/-- The `params.progressToken` value carried inside a framed notification
(`none` when the notification has no `params` or no `progressToken` field). -/
def progress_token_of (v : JVal) : Option JVal :=
  (jlookup v "params").bind (fun p => jlookup p "progressToken")

/-! ## Helper lemmas -/

lemma jeqStr_str (t s : String) : jeqStr (.str t) s = (t == s) := rfl

lemma base_response_exclusive (res err : Option JVal) (rid : JVal) :
    exactly_one_result_error (base_response res err rid) = true := by
  cases err <;> rfl

/-- Every successful `build_response` output is the three-field envelope
`jsonrpc`/`id`/(`result` or `error`), with `id` echoing the request id. -/
lemma build_response_ok_shape (fs : List (String × JVal)) (r : JVal)
    (h : build_response (.obj fs) = .ok r) :
    ∃ body,
      r = .obj [("jsonrpc", .str "2.0"), ("id", (List.lookup "id" fs).getD .null),
                ("result", body)] ∨
      r = .obj [("jsonrpc", .str "2.0"), ("id", (List.lookup "id" fs).getD .null),
                ("error", body)] := by
  simp only [build_response, jget] at h
  repeat' split at h
  all_goals first
    | (cases h; exact ⟨_, Or.inl rfl⟩)
    | (cases h; exact ⟨_, Or.inr rfl⟩)
    | simp at h

/-- Every synchronous `handle_mcp` body is a `base_response` echoing the
request id. -/
lemma handle_mcp_json_shape (fs : List (String × JVal)) (b : JVal)
    (h : handle_mcp (.obj fs) = .ok (.json b)) :
    ∃ res err, b = base_response res err ((List.lookup "id" fs).getD .null) := by
  simp only [handle_mcp, jget] at h
  repeat' split at h
  all_goals first
    | (cases h; exact ⟨_, _, rfl⟩)
    | simp at h

/-- Every successful run of the slow stream is ten progress frames followed by
exactly one terminal response frame. -/
lemma slow_uppercase_stream_ok_shape (payload request_id : JVal) (input_value : String)
    (F : List Frame) (h : slow_uppercase_stream payload request_id input_value = .ok F) :
    ∃ tok,
      F = (List.range 10).map (fun i => ("message", progress_event tok (i + 1)))
          ++ [("message", base_response (some (tool_text_result (str_upper input_value))) none
                request_id)] := by
  simp only [slow_uppercase_stream, jget] at h
  repeat' split at h
  all_goals first
    | (cases h; exact ⟨_, rfl⟩)
    | simp at h

/-- Every streaming `handle_mcp` result has the ten-progress-then-terminal
shape, with the terminal frame echoing the request id. -/
lemma handle_mcp_stream_shape (fs : List (String × JVal)) (F : List Frame)
    (h : handle_mcp (.obj fs) = .ok (.stream F)) :
    ∃ tok txt,
      F = (List.range 10).map (fun i => ("message", progress_event tok (i + 1)))
          ++ [("message", base_response (some (tool_text_result txt)) none
                ((List.lookup "id" fs).getD .null))] := by
  simp only [handle_mcp, jget] at h
  repeat' split at h
  all_goals try simp at h
  rename_i frames heq
  obtain ⟨tok, hF⟩ := slow_uppercase_stream_ok_shape _ _ _ _ heq
  cases h
  exact ⟨tok, _, hF⟩

/-- The exact frame list of a well-formed progressive call (shared by the
theorems about the slow tool). -/
lemma handle_mcp_slowly_frames (fs ps as ms : List (String × JVal)) (s : String)
    (hm : List.lookup "method" fs = some (.str "tools/call"))
    (hp : List.lookup "params" fs = some (.obj ps))
    (hn : List.lookup "name" ps = some (.str "to-uppercase-slowly"))
    (ha : List.lookup "arguments" ps = some (.obj as))
    (hi : List.lookup "input" as = some (.str s))
    (hmeta : List.lookup "_meta" ps = some (.obj ms) ∨
             (List.lookup "_meta" ps = none ∧ ms = [])) :
    handle_mcp (.obj fs) =
      .ok (.stream (
        (List.range 10).map (fun i =>
          ("message", progress_event ((List.lookup "progressToken" ms).getD .null) (i + 1)))
        ++ [("message", base_response (some (tool_text_result (str_upper s))) none
              ((List.lookup "id" fs).getD .null))])) := by
  rcases hmeta with hmeta | ⟨hmeta, rfl⟩ <;>
    simp [handle_mcp, slow_uppercase_stream, jget, jeqStr_str, hm, hp, hn, ha, hi,
          hmeta, pyStr]

/-! ## Claim theorems -/

/-- Claim C1: a progressive `tools/call` of `to-uppercase-slowly` on the
Streamable transport streams exactly ten progress frames whose
`params.progress` is `i + 1` for `i = 0..9` (so 1 through 10, strictly
increasing), each with `params.total = 10` and `params.message =
"Server progress \x7bprogress*10\x7d%"` (see `progress_event`), followed by
exactly one terminal frame whose `result.content[0].text` is the uppercased
input, and nothing after it: the produced frame list is literally the
ten-element `progress_event` map followed by the single terminal response. -/
theorem spec_c1_progressive_stream (fs ps as ms : List (String × JVal)) (s : String)
    (hm : List.lookup "method" fs = some (.str "tools/call"))
    (hp : List.lookup "params" fs = some (.obj ps))
    (hn : List.lookup "name" ps = some (.str "to-uppercase-slowly"))
    (ha : List.lookup "arguments" ps = some (.obj as))
    (hi : List.lookup "input" as = some (.str s))
    (hmeta : List.lookup "_meta" ps = some (.obj ms) ∨
             (List.lookup "_meta" ps = none ∧ ms = [])) :
    handle_mcp (.obj fs) =
      .ok (.stream (
        (List.range 10).map (fun i =>
          ("message", progress_event ((List.lookup "progressToken" ms).getD .null) (i + 1)))
        ++ [("message", base_response (some (tool_text_result (str_upper s))) none
              ((List.lookup "id" fs).getD .null))])) :=
  handle_mcp_slowly_frames fs ps as ms s hm hp hn ha hi hmeta

/-- Claim C1, witness: the concrete progressive call `sample_slow_call`
(input `"abc"`, token `"tok-1"`, id 4) streams the ten progress frames and
the terminal `"ABC"` response. -/
theorem spec_c1_progressive_stream_witness :
    handle_mcp (.obj sample_slow_call) =
      .ok (.stream (
        (List.range 10).map (fun i => ("message", progress_event (.str "tok-1") (i + 1)))
        ++ [("message", base_response (some (tool_text_result "ABC")) none (.num 4))])) :=
  spec_c1_progressive_stream sample_slow_call
    [("name", .str "to-uppercase-slowly"),
     ("_meta", .obj [("progressToken", .str "tok-1")]),
     ("arguments", .obj [("input", .str "abc")])]
    [("input", .str "abc")] [("progressToken", .str "tok-1")] "abc"
    rfl rfl rfl rfl rfl (Or.inl rfl)

/-- Claim C2: a synchronous `tools/call` of `to-uppercase` returns, on both
transports, `result.content = [{"type":"text","text": uppercase(input)}]`
and `result.isError = false` (both packed in `tool_text_result`); a missing
`input` argument defaults to the empty string instead of failing (the
disjunctive hypothesis covers the present-string and absent cases). -/
theorem spec_c2_sync_uppercase (fs ps as : List (String × JVal)) (s : String)
    (hm : List.lookup "method" fs = some (.str "tools/call"))
    (hp : List.lookup "params" fs = some (.obj ps))
    (hn : List.lookup "name" ps = some (.str "to-uppercase"))
    (ha : List.lookup "arguments" ps = some (.obj as))
    (hi : List.lookup "input" as = some (.str s) ∨
          (List.lookup "input" as = none ∧ s = "")) :
    build_response (.obj fs) =
      .ok (.obj [("jsonrpc", .str "2.0"), ("id", (List.lookup "id" fs).getD .null),
                 ("result", tool_text_result (str_upper s))]) ∧
    handle_mcp (.obj fs) =
      .ok (.json (base_response (some (tool_text_result (str_upper s))) none
        ((List.lookup "id" fs).getD .null))) := by
  rcases hi with hi | ⟨hi, rfl⟩ <;>
    exact ⟨by simp [build_response, jget, jeqStr, hm, hp, hn, ha, hi, perform_to_uppercase],
           by simp [handle_mcp, jget, jeqStr, hm, hp, hn, ha, hi, pyStr]⟩

/-- Claim C2, witness: calling `to-uppercase` with input `"abc"` yields text
`"ABC"`, `isError = false`, on both transports. -/
theorem spec_c2_sync_uppercase_witness :
    build_response (.obj sample_upper_call) =
      .ok (.obj [("jsonrpc", .str "2.0"), ("id", .num 1),
                 ("result", tool_text_result "ABC")]) ∧
    handle_mcp (.obj sample_upper_call) =
      .ok (.json (base_response (some (tool_text_result "ABC")) none (.num 1))) :=
  spec_c2_sync_uppercase sample_upper_call
    [("name", .str "to-uppercase"), ("arguments", .obj [("input", .str "abc")])]
    [("input", .str "abc")] "abc" rfl rfl rfl rfl (Or.inl rfl)

/-- Claim C3, counterexample: the claim is false for the empty session id.
`""` names a session that was never created (lookup in any registry — here
the empty one — fails), yet `post_message` answers 400 (`badRequest`,
because Python's `if not session_id` treats the empty string as missing),
not 404 (`notFound`). Nothing is enqueued either way. -/
theorem spec_c3_counterexample :
    SessionRegistry.get ([] : SessionRegistry) "" = none ∧
    post_message ([] : SessionRegistry) (some "") (.obj []) = ([], .badRequest) ∧
    PostOutcome.badRequest ≠ PostOutcome.notFound :=
  ⟨rfl, rfl, by decide⟩

/-- Claim C3, amended: a POST whose *nonempty* `sessionid` names a session
that was never created or has been removed (i.e. the registry lookup fails)
yields 404, and leaves the registry — hence every channel — unchanged, so
nothing is enqueued anywhere. (An empty or missing `sessionid` instead
yields 400, likewise without enqueueing anything.) -/
theorem spec_c3_unknown_session_404 (r : SessionRegistry) (sid : String) (body : JVal)
    (hne : sid ≠ "")
    (hmiss : SessionRegistry.get r sid = none) :
    post_message r (some sid) body = (r, .notFound) := by
  simp [post_message, hne, hmiss]

/-- Claim C3, witness: POSTing to session `"zzz"` of an empty registry is a
404 and leaves the registry empty. -/
theorem spec_c3_unknown_session_404_witness :
    post_message ([] : SessionRegistry) (some "zzz") (.obj []) =
      ([], .notFound) :=
  spec_c3_unknown_session_404 [] "zzz" (.obj []) (by decide) rfl

/-- Claim C4: a `tools/call` whose `params.name` is neither registered tool
gets, on the Streamable transport, the JSON-RPC error `-32602 "Unsupported
tool name"`, and on the Session-Registry transport falls through to the
generic `-32601 "Method not found"` error; both dispatchers return normally
(`.ok`), with no raised failure. -/
theorem spec_c4_unknown_tool (fs ps as : List (String × JVal)) (nm : JVal)
    (hm : List.lookup "method" fs = some (.str "tools/call"))
    (hp : List.lookup "params" fs = some (.obj ps))
    (hn : List.lookup "name" ps = some nm)
    (h1 : jeqStr nm "to-uppercase" = false)
    (h2 : jeqStr nm "to-uppercase-slowly" = false)
    (ha : List.lookup "arguments" ps = some (.obj as) ∨
          List.lookup "arguments" ps = none) :
    handle_mcp (.obj fs) =
      .ok (.json (base_response none (some (rpc_error (-32602) "Unsupported tool name"))
        ((List.lookup "id" fs).getD .null))) ∧
    build_response (.obj fs) =
      .ok (.obj [("jsonrpc", .str "2.0"), ("id", (List.lookup "id" fs).getD .null),
                 ("error", rpc_error (-32601) "Method not found")]) := by
  rcases ha with ha | ha <;>
    exact ⟨by simp [handle_mcp, jget, jeqStr_str, hm, hp, hn, h1, h2, ha],
           by simp [build_response, jget, jeqStr_str, hm, hp, hn, h1, ha]⟩

/-- Claim C4, witness: calling the unregistered tool `"no-such-tool"` yields
`-32602` on the Streamable transport and `-32601` on the Session-Registry
transport, and neither raises. -/
theorem spec_c4_unknown_tool_witness :
    handle_mcp (.obj sample_unknown_call) =
      .ok (.json (base_response none (some (rpc_error (-32602) "Unsupported tool name"))
        (.num 3))) ∧
    build_response (.obj sample_unknown_call) =
      .ok (.obj [("jsonrpc", .str "2.0"), ("id", .num 3),
                 ("error", rpc_error (-32601) "Method not found")]) :=
  spec_c4_unknown_tool sample_unknown_call
    [("name", .str "no-such-tool"), ("arguments", .obj [("input", .str "abc")])]
    [("input", .str "abc")] (.str "no-such-tool") rfl rfl rfl rfl rfl
    (Or.inl rfl)

/-- Claim C5: on both dispatchers, the `id` of the produced response — the
synchronous body, or the terminal frame of a progressive stream — is exactly
the request's `id`, with an absent `id` read (as Python's `payload.get("id")`
does) as `null`. -/
theorem spec_c5_id_roundtrip (fs : List (String × JVal)) :
    (∀ r, build_response (.obj fs) = .ok r →
       jlookup r "id" = some ((List.lookup "id" fs).getD .null)) ∧
    (∀ b, handle_mcp (.obj fs) = .ok (.json b) →
       jlookup b "id" = some ((List.lookup "id" fs).getD .null)) ∧
    (∀ F t, handle_mcp (.obj fs) = .ok (.stream F) → F.getLast? = some t →
       jlookup t.2 "id" = some ((List.lookup "id" fs).getD .null)) := by
  refine ⟨?_, ?_, ?_⟩
  · rintro r h
    rcases build_response_ok_shape fs r h with ⟨body, rfl | rfl⟩ <;>
      simp [jlookup, List.lookup]
  · rintro b h
    rcases handle_mcp_json_shape fs b h with ⟨res, err, rfl⟩
    cases err <;> simp [base_response, jlookup, List.lookup]
  · rintro F t h hlast
    rcases handle_mcp_stream_shape fs F h with ⟨tok, txt, rfl⟩
    rw [List.getLast?_concat] at hlast
    cases hlast
    simp [base_response, jlookup, List.lookup]

/-- Claim C5, witness: the `tools/list` request with id 7 gets a response
whose `id` is 7. -/
theorem spec_c5_id_roundtrip_witness :
    jlookup (.obj [("jsonrpc", .str "2.0"), ("id", .num 7),
                   ("result", .obj [("tools", .arr [uppercase_tool])])]) "id" =
      some (.num 7) :=
  (spec_c5_id_roundtrip sample_list_call).1
    (.obj [("jsonrpc", .str "2.0"), ("id", .num 7),
           ("result", .obj [("tools", .arr [uppercase_tool])])]) rfl

/-- Claim C6: every response envelope either dispatcher produces — any
successful `build_response` output, any synchronous `handle_mcp` body, and
the terminal frame of any progressive stream — carries exactly one of
`result`/`error`: never both, never neither. -/
theorem spec_c6_result_xor_error (fs : List (String × JVal)) :
    (∀ r, build_response (.obj fs) = .ok r → exactly_one_result_error r = true) ∧
    (∀ b, handle_mcp (.obj fs) = .ok (.json b) → exactly_one_result_error b = true) ∧
    (∀ F t, handle_mcp (.obj fs) = .ok (.stream F) → F.getLast? = some t →
       exactly_one_result_error t.2 = true) := by
  refine ⟨?_, ?_, ?_⟩
  · rintro r h
    rcases build_response_ok_shape fs r h with ⟨body, rfl | rfl⟩ <;> rfl
  · rintro b h
    rcases handle_mcp_json_shape fs b h with ⟨res, err, rfl⟩
    exact base_response_exclusive res err _
  · rintro F t h hlast
    rcases handle_mcp_stream_shape fs F h with ⟨tok, txt, rfl⟩
    rw [List.getLast?_concat] at hlast
    cases hlast
    exact base_response_exclusive _ none _

/-- Claim C6, witness: the `tools/list` response envelope has a `result` and
no `error`. -/
theorem spec_c6_result_xor_error_witness :
    exactly_one_result_error
      (.obj [("jsonrpc", .str "2.0"), ("id", .num 7),
             ("result", .obj [("tools", .arr [uppercase_tool])])]) = true :=
  (spec_c6_result_xor_error sample_list_call).1
    (.obj [("jsonrpc", .str "2.0"), ("id", .num 7),
           ("result", .obj [("tools", .arr [uppercase_tool])])]) rfl

/-- Claim C7: a fresh `GET /sse` connection creates a session with an empty
queue, and the stream's first frame — with nothing before it — is the
`endpoint` event whose data is a URL carrying the new session id in the
`sessionid` query parameter. -/
theorem spec_c7_endpoint_event_first (r : SessionRegistry) (session_id : String)
    (base_url : Option String) (later : List Frame) :
    SessionRegistry.get (SessionRegistry.create r session_id) session_id = some [] ∧
    event_generator [] base_url session_id later =
      ("endpoint", .str (endpoint_url base_url session_id)) :: later ∧
    (event_generator [] base_url session_id later).head? =
      some ("endpoint", .str (endpoint_url base_url session_id)) ∧
    (∃ pre, endpoint_url base_url session_id = pre ++ "?sessionid=" ++ session_id) := by
  refine ⟨?_, rfl, rfl, ?_⟩
  · simp [SessionRegistry.get, SessionRegistry.create, List.lookup]
  · cases base_url with
    | none => exact ⟨"/message", rfl⟩
    | some base => exact ⟨base, rfl⟩

/-- Claim C8, counterexample: the claim says `params.progressToken` is absent
when the caller supplied none — but for the token-less progressive call
`slow_call_without_token`, the first progress frame's `params` *contains* a
`progressToken` field, with value `null` (`progress_token` is written into
the dict unconditionally in the source, as `None` when missing). -/
theorem spec_c8_counterexample :
    first_frame_params (handle_mcp (.obj slow_call_without_token)) =
      some (.obj [("progress", .num 1), ("total", .num 10),
                  ("progressToken", JVal.null),
                  ("message", .str "Server progress 10%")]) ∧
    jlookup (.obj [("progress", .num 1), ("total", .num 10),
                   ("progressToken", JVal.null),
                   ("message", .str "Server progress 10%")]) "progressToken" =
      some JVal.null ∧
    some JVal.null ≠ (none : Option JVal) :=
  ⟨rfl, rfl, by simp⟩

/-- Claim C8, amended: every progress notification of a progressive call has
method `notifications/progress`, carries no `id` field, and its
`params.progressToken` is the caller's `params._meta.progressToken`, or
`null` (the field present, holding JSON null) when the caller supplied
none. -/
theorem spec_c8_progress_notifications (fs ps as ms : List (String × JVal)) (s : String)
    (hm : List.lookup "method" fs = some (.str "tools/call"))
    (hp : List.lookup "params" fs = some (.obj ps))
    (hn : List.lookup "name" ps = some (.str "to-uppercase-slowly"))
    (ha : List.lookup "arguments" ps = some (.obj as))
    (hi : List.lookup "input" as = some (.str s))
    (hmeta : List.lookup "_meta" ps = some (.obj ms) ∨
             (List.lookup "_meta" ps = none ∧ ms = [])) :
    handle_mcp (.obj fs) =
      .ok (.stream (
        (List.range 10).map (fun i =>
          ("message", progress_event ((List.lookup "progressToken" ms).getD .null) (i + 1)))
        ++ [("message", base_response (some (tool_text_result (str_upper s))) none
              ((List.lookup "id" fs).getD .null))])) ∧
    ∀ f ∈ (List.range 10).map (fun i =>
          (("message", progress_event ((List.lookup "progressToken" ms).getD .null) (i + 1)) : Frame)),
      f.1 = "message" ∧
      jlookup f.2 "method" = some (.str "notifications/progress") ∧
      jlookup f.2 "id" = none ∧
      progress_token_of f.2 = some ((List.lookup "progressToken" ms).getD .null) := by
  refine ⟨handle_mcp_slowly_frames fs ps as ms s hm hp hn ha hi hmeta, ?_⟩
  rintro f hf
  rcases List.mem_map.1 hf with ⟨i, -, rfl⟩
  refine ⟨rfl, ?_, ?_, ?_⟩ <;>
    simp [progress_event, jlookup, progress_token_of, List.lookup]

/-- Claim C8 (amended), witness: a progress frame of the token-less call has
`progressToken = null` in its `params` and no `id` field. -/
theorem spec_c8_progress_notifications_witness :
    progress_token_of (progress_event JVal.null 1) = some JVal.null ∧
    jlookup (progress_event JVal.null 1) "id" = none := by
  have h := spec_c8_progress_notifications slow_call_without_token
    [("name", .str "to-uppercase-slowly"), ("arguments", .obj [("input", .str "abc")])]
    [("input", .str "abc")] [] "abc" rfl rfl rfl rfl rfl (Or.inr ⟨rfl, rfl⟩)
  have hf := h.2 ("message", progress_event JVal.null 1)
    (List.mem_map.2 ⟨0, by simp, rfl⟩)
  exact ⟨hf.2.2.2, hf.2.2.1⟩

/-- Claim C9: on the Streamable transport, `tools/call` of `to-uppercase`
never fails on a non-string `arguments.input`: whatever decoded JSON value
the input is (or when it is absent), it is coerced with Python `str()`
(`pyStr`) and the call returns a normal `result` (an `.ok` `.json` response
built from `base_response` with a `result`, not an `error`). -/
theorem spec_c9_nonstring_input_coerced (fs ps as : List (String × JVal)) (v : JVal)
    (hm : List.lookup "method" fs = some (.str "tools/call"))
    (hp : List.lookup "params" fs = some (.obj ps))
    (hn : List.lookup "name" ps = some (.str "to-uppercase"))
    (ha : List.lookup "arguments" ps = some (.obj as))
    (hi : List.lookup "input" as = some v ∨
          (List.lookup "input" as = none ∧ v = .str "")) :
    handle_mcp (.obj fs) =
      .ok (.json (base_response (some (tool_text_result (str_upper (pyStr v)))) none
        ((List.lookup "id" fs).getD .null))) := by
  rcases hi with hi | ⟨hi, rfl⟩ <;>
    simp [handle_mcp, jget, jeqStr, hm, hp, hn, ha, hi]

/-- Claim C9, witness: input `5` (a JSON number) is coerced to `"5"` and
uppercased without error. -/
theorem spec_c9_nonstring_input_coerced_witness :
    handle_mcp (.obj sample_nonstring_call) =
      .ok (.json (base_response (some (tool_text_result "5")) none (.num 2))) :=
  spec_c9_nonstring_input_coerced sample_nonstring_call
    [("name", .str "to-uppercase"), ("arguments", .obj [("input", .num 5)])]
    [("input", .num 5)] (.num 5) rfl rfl rfl rfl (Or.inl rfl)

/-- Claim C10: on the Session-Registry transport a POST whose JSON-RPC body
has no `id` field is dispatched like any request: the response — whose `id`
is `null` — is framed as a `message` event and enqueued onto the session's
channel, and the POST is acknowledged with 202. -/
theorem spec_c10_notification_gets_response (r : SessionRegistry) (sid : String)
    (q : List Frame) (fs : List (String × JVal)) (resp : JVal)
    (hne : sid ≠ "")
    (hq : SessionRegistry.get r sid = some q)
    (hid : List.lookup "id" fs = none)
    (hresp : build_response (.obj fs) = .ok resp) :
    post_message r (some sid) (.obj fs) =
      (SessionRegistry.enqueue r sid ("message", resp), .accepted) ∧
    jlookup resp "id" = some JVal.null := by
  constructor
  · simp [post_message, hne, hq, hresp]
  · rcases build_response_ok_shape fs resp hresp with ⟨body, rfl | rfl⟩ <;>
      simp [jlookup, List.lookup, hid]

/-- Claim C10, witness: an id-less `tools/list` POST to session `"abc"`
enqueues the `tools/list` response with `id = null` and is acknowledged. -/
theorem spec_c10_notification_gets_response_witness :
    post_message sample_registry (some "abc") (.obj sample_list_notification) =
      ([("abc", [("message",
          .obj [("jsonrpc", .str "2.0"), ("id", JVal.null),
                ("result", .obj [("tools", .arr [uppercase_tool])])])])],
       .accepted) ∧
    jlookup (.obj [("jsonrpc", .str "2.0"), ("id", JVal.null),
                   ("result", .obj [("tools", .arr [uppercase_tool])])]) "id" =
      some JVal.null :=
  spec_c10_notification_gets_response sample_registry "abc" []
    sample_list_notification
    (.obj [("jsonrpc", .str "2.0"), ("id", JVal.null),
           ("result", .obj [("tools", .arr [uppercase_tool])])])
    (by decide) rfl rfl rfl
